import Mathlib

/-!
Verification of the device/surface negotiation and swapchain construction
pipeline of the voxelvoxel renderer (`src/main.rs`), via a shallow embedding
of its pure decision logic. Driver calls are modelled as explicit function
parameters returning `Except VkResult _`; machine integers (`u32`) are `Nat`
with explicit `% 2^32` where overflow matters; C strings (`*const c_char`,
`[c_char; 256]`) are byte lists (`List Nat`) where 0 is the nul terminator.
-/

namespace VoxelVoxel

/-- Vulkan result codes (`vk::Result` is an `i32` newtype). -/
abbrev VkResult := Int

/-- Opaque physical-device handle (`vk::PhysicalDevice`). -/
abbrev PhysicalDevice := Nat

/-- Bytes of a Rust string (ASCII here), used to model C string contents. -/
def strBytes (s : String) : List Nat := s.toList.map Char.toNat

/-- The five required device extension names (`DEVICE_EXTENSION_NAMES`,
`src/main.rs:20-28`), each modelled as its byte content without the nul
terminator, matching what `CStr::from_ptr` compares. -/
def DEVICE_EXTENSION_NAMES : List (List Nat) :=
  [ strBytes "VK_KHR_ray_tracing_pipeline",
    strBytes "VK_KHR_spirv_1_4",
    strBytes "VK_KHR_acceleration_structure",
    strBytes "VK_KHR_deferred_host_operations",
    strBytes "VK_KHR_swapchain" ]

/-- `CStr::from_bytes_until_nul`: returns the bytes strictly before the first
nul, or fails when the buffer holds no nul byte. -/
def fromBytesUntilNul (bs : List Nat) : Option (List Nat) :=
  if bs.contains 0 then some (bs.takeWhile (· ≠ 0)) else none

/-- `vk::ExtensionProperties`: the driver-reported name buffer
(`extension_name : [c_char; 256]`, modelled as an unbounded byte list since
only the prefix up to the first nul matters). -/
structure ExtensionProperties where
  extensionName : List Nat
  deriving DecidableEq, Repr

/-- Bitmask `contains` as in ash's `vk::Flags::contains`:
`(self & other) == other`. -/
def containsFlag (bits flag : Nat) : Bool := bits &&& flag == flag

/-- `vk::QueueFlags::GRAPHICS` bit. -/
def QUEUE_GRAPHICS : Nat := 1

/-- `vk::QueueFamilyProperties`: only the queue flags are consulted. -/
structure QueueFamilyProperties where
  queueFlags : Nat
  deriving DecidableEq, Repr

/-- `Iterator::find_map`: first `some` produced by `f`, else `none`. -/
def findMap (f : α → Option β) : List α → Option β
  | [] => none
  | a :: as =>
    match f a with
    | some b => some b
    | none => findMap f as

/-- The device-extension filter body (`src/main.rs:116-122`): for each
reported extension, parse its name buffer (`.ok()?` skips to the next entry on
parse failure) and wrap the comparison against `DEVICE_EXTENSION_NAMES[0]` in
`Some`, so `find_map` returns the comparison result of the FIRST parseable
entry, whatever that comparison's outcome. -/
def deviceExtensionCheck (exts : List ExtensionProperties) : Option Bool :=
  findMap
    (fun ext =>
      (fromBytesUntilNul ext.extensionName).map
        (fun name => decide (DEVICE_EXTENSION_NAMES[0]! = name)))
    exts

/-- The driver-call surface consumed by `find_suitable_physical_device`:
`enumerate_physical_devices`, `enumerate_device_extension_properties`,
`get_physical_device_queue_family_properties` (infallible in ash) and
`get_physical_device_surface_support` for a fixed target surface. -/
structure SelectionDriver where
  physicalDevices : Except VkResult (List PhysicalDevice)
  deviceExtensions : PhysicalDevice → Except VkResult (List ExtensionProperties)
  queueFamilies : PhysicalDevice → List QueueFamilyProperties
  surfaceSupport : PhysicalDevice → Nat → Except VkResult Bool

/-- The closure `queue_family_supports_features` (`src/main.rs:94-106`) as a
boolean: the family advertises GRAPHICS and the surface-support query returns
`Ok(true)` (an `Err` hits `.ok()?` and rejects the family, as does
`Ok(false)`). -/
def queueFamilySupportsFeatures (drv : SelectionDriver) (pd : PhysicalDevice)
    (index : Nat) (info : QueueFamilyProperties) : Bool :=
  containsFlag info.queueFlags QUEUE_GRAPHICS
    && (match drv.surfaceSupport pd index with
        | .ok b => b
        | .error _ => false)

/-- `iter().enumerate().find_map` over queue families (`src/main.rs:124-131`):
first index (counting from `i`) whose properties satisfy `cond`. -/
def findQF (cond : Nat → QueueFamilyProperties → Bool) :
    Nat → List QueueFamilyProperties → Option Nat
  | _, [] => none
  | i, f :: fs => if cond i f then some i else findQF cond (i + 1) fs

/-- The per-device body of the outer `find_map` (`src/main.rs:111-131`):
extension enumeration failure skips the device; the extension filter must
produce a value (see `deviceExtensionCheck`); then the first suitable queue
family index is paired with the device. -/
def checkDevice (drv : SelectionDriver) (pd : PhysicalDevice) :
    Option (PhysicalDevice × Nat) :=
  match (drv.deviceExtensions pd).toOption with
  | none => none
  | some exts =>
    match deviceExtensionCheck exts with
    | none => none
    | some _ =>
      match findQF (queueFamilySupportsFeatures drv pd) 0 (drv.queueFamilies pd) with
      | none => none
      | some i => some (pd, i)

/-- Failure modes of `find_suitable_physical_device`: a propagated driver
error from `enumerate_physical_devices()?`, or the
"No suitable physical devices found." error. -/
inductive SelectError where
  | vkError (r : VkResult)
  | noSuitableDevice
  deriving DecidableEq, Repr

/-- `find_suitable_physical_device` (`src/main.rs:87-134`). -/
def find_suitable_physical_device (drv : SelectionDriver) :
    Except SelectError (PhysicalDevice × Nat) :=
  match drv.physicalDevices with
  | .error r => .error (.vkError r)
  | .ok devs =>
    match findMap (checkDevice drv) devs with
    | some p => .ok p
    | none => .error .noSuitableDevice

/-! ### Logical device creation (`create_queue_and_logical_device`) -/

/-- Opaque logical-device handle (`ash::Device`). -/
abbrev Device := Nat

/-- Opaque queue handle (`vk::Queue`). -/
abbrev Queue := Nat

/-- `vk::DeviceQueueCreateInfo`: family index and priorities; the requested
queue count is `queuePriorities.length` (ash sets `queue_count` from the
slice length, as the source comment at `src/main.rs:141` notes). The `f32`
priority `1.0` is a literal never computed with, modelled as `(1 : ℚ)`. -/
structure DeviceQueueCreateInfo where
  queueFamilyIndex : Nat
  queuePriorities : List ℚ
  deriving DecidableEq, Repr

/-- `vk::PhysicalDeviceFeatures::default()`: every feature flag is `false`.
A representative subset of the boolean fields is modelled; `default` sets all
of them to `false` exactly as the source's `::default()` does. -/
structure PhysicalDeviceFeatures where
  robustBufferAccess : Bool := false
  geometryShader : Bool := false
  samplerAnisotropy : Bool := false
  shaderInt64 : Bool := false
  deriving DecidableEq, Repr

/-- `vk::DeviceCreateInfo` as populated at `src/main.rs:148-151`. -/
structure DeviceCreateInfo where
  queueCreateInfos : List DeviceQueueCreateInfo
  enabledExtensionNames : List (List Nat)
  enabledFeatures : PhysicalDeviceFeatures
  deriving DecidableEq, Repr

/-- The `DeviceCreateInfo` built by `create_queue_and_logical_device`
(`src/main.rs:140-151`): one queue-create entry for the given family with
priorities `[1.0]`, the full `DEVICE_EXTENSION_NAMES`, default features. -/
def mkDeviceCreateInfo (queueFamilyIndex : Nat) : DeviceCreateInfo :=
  { queueCreateInfos := [{ queueFamilyIndex, queuePriorities := [1] }],
    enabledExtensionNames := DEVICE_EXTENSION_NAMES,
    enabledFeatures := {} }

/-- `create_queue_and_logical_device` (`src/main.rs:135-157`), abstracted over
the driver's `create_device` and `get_device_queue` entry points: creates the
device from `mkDeviceCreateInfo` and retrieves the queue at queue index 0 of
the given family. -/
def create_queue_and_logical_device
    (createDevice : DeviceCreateInfo → Except VkResult Device)
    (getDeviceQueue : Device → Nat → Nat → Queue)
    (queueFamilyIndex : Nat) : Except VkResult (Device × Queue) :=
  match createDevice (mkDeviceCreateInfo queueFamilyIndex) with
  | .error e => .error e
  | .ok device => .ok (device, getDeviceQueue device queueFamilyIndex 0)

/-! ### Swapchain parameter selection (`create_swapchain`) -/

/-- Window dimensions (`WIDTH`, `HEIGHT`, `src/main.rs:30-31`). -/
def WIDTH : Nat := 800

/-- See `WIDTH`. -/
def HEIGHT : Nat := 600

/-- `u32::MAX` = 0xFFFFFFFF, the Vulkan "extent undefined" sentinel. -/
def U32_MAX : Nat := 2 ^ 32 - 1

/-- `vk::Extent2D` (`u32` fields). -/
structure Extent2D where
  width : Nat
  height : Nat
  deriving DecidableEq, Repr

/-- `vk::SurfaceTransformFlagsKHR::IDENTITY` bit. -/
def TRANSFORM_IDENTITY : Nat := 1

/-- `vk::SurfaceCapabilitiesKHR`, the fields `create_swapchain` reads plus
the min/max image extent bounds (present in the Vulkan struct but never read
by the code — relevant to the no-clamping property). -/
structure SurfaceCapabilities where
  minImageCount : Nat
  maxImageCount : Nat
  currentExtent : Extent2D
  minImageExtent : Extent2D
  maxImageExtent : Extent2D
  supportedTransforms : Nat
  currentTransform : Nat
  deriving DecidableEq, Repr

/-- Image-count computation (`src/main.rs:187-191`): `min_image_count + 1` in
`u32` arithmetic, clamped down to `max_image_count` when the latter is
nonzero (0 means unlimited). -/
def computeImageCount (caps : SurfaceCapabilities) : Nat :=
  let imageCount := (caps.minImageCount + 1) % 2 ^ 32
  if caps.maxImageCount > 0 && imageCount > caps.maxImageCount then
    caps.maxImageCount
  else
    imageCount

/-- Extent selection (`src/main.rs:193-200`): the configured window size when
the surface reports the undefined-extent sentinel in `width`, otherwise the
reported `current_extent` verbatim. -/
def chooseExtent (caps : SurfaceCapabilities) : Extent2D :=
  if caps.currentExtent.width = U32_MAX then
    { width := WIDTH, height := HEIGHT }
  else
    caps.currentExtent

/-- Pre-transform selection (`src/main.rs:202-209`). -/
def choosePreTransform (caps : SurfaceCapabilities) : Nat :=
  if containsFlag caps.supportedTransforms TRANSFORM_IDENTITY then
    TRANSFORM_IDENTITY
  else
    caps.currentTransform

/-- `vk::PresentModeKHR` is an `i32` newtype; codes per the Vulkan headers. -/
abbrev PresentMode := Nat

/-- `vk::PresentModeKHR::MAILBOX`. -/
def MAILBOX : PresentMode := 1

/-- `vk::PresentModeKHR::FIFO`. -/
def FIFO : PresentMode := 2

/-- Failure modes local to `create_swapchain`'s selection logic. -/
inductive SwapchainError where
  | noPresentModes
  | noFormats
  deriving DecidableEq, Repr

/-- Present-mode selection (`src/main.rs:181-185`): MAILBOX when the reported
list contains it, else the first reported mode,
else the "No present modes detected!" error. -/
def choosePresentMode (presentModes : List PresentMode) :
    Except SwapchainError PresentMode :=
  if presentModes.contains MAILBOX then
    .ok MAILBOX
  else
    match presentModes with
    | [] => .error .noPresentModes
    | m :: _ => .ok m

/-! ### Swapchain image views (`get_swapchain_images`) -/

/-- Opaque image handle (`vk::Image`). -/
abbrev Image := Nat

/-- Opaque image-view handle (`vk::ImageView`). -/
abbrev ImageView := Nat

/-- `vk::SurfaceFormatKHR`: format and color-space codes. -/
structure SurfaceFormat where
  format : Nat
  colorSpace : Nat
  deriving DecidableEq, Repr

/-- `vk::ComponentSwizzle` values used by the code. -/
inductive ComponentSwizzle where
  | identity
  | zero
  | one
  deriving DecidableEq, Repr

/-- `vk::ComponentMapping`. -/
structure ComponentMapping where
  r : ComponentSwizzle
  g : ComponentSwizzle
  b : ComponentSwizzle
  a : ComponentSwizzle
  deriving DecidableEq, Repr

/-- `vk::ImageViewType` values. -/
inductive ImageViewType where
  | type1D
  | type2D
  | type3D
  | cube
  deriving DecidableEq, Repr

/-- `vk::ImageAspectFlags::COLOR` bit. -/
def ASPECT_COLOR : Nat := 1

/-- `vk::ImageSubresourceRange`. -/
structure ImageSubresourceRange where
  aspectMask : Nat
  baseMipLevel : Nat
  levelCount : Nat
  baseArrayLayer : Nat
  layerCount : Nat
  deriving DecidableEq, Repr

/-- `vk::ImageViewCreateInfo` as populated at `src/main.rs:248-264`. -/
structure ImageViewCreateInfo where
  image : Image
  viewType : ImageViewType
  format : Nat
  components : ComponentMapping
  subresourceRange : ImageSubresourceRange
  deriving DecidableEq, Repr

/-- The view create-info built per image (`src/main.rs:247-264`): 2-D view of
the surface format, identity swizzle on r/g/b with alpha forced to ONE, color
aspect, single mip level and array layer. -/
def mkImageViewCreateInfo (image : Image) (format : SurfaceFormat) :
    ImageViewCreateInfo :=
  { image,
    viewType := .type2D,
    format := format.format,
    components :=
      { r := .identity, g := .identity, b := .identity, a := .one },
    subresourceRange :=
      { aspectMask := ASPECT_COLOR, baseMipLevel := 0, levelCount := 1,
        baseArrayLayer := 0, layerCount := 1 } }

/-- `Iterator::map(..).collect::<Result<Vec<_>, _>>()`: left-to-right, the
first `Err` aborts the whole collection. -/
def mapExcept (f : α → Except ε β) : List α → Except ε (List β)
  | [] => .ok []
  | a :: as =>
    match f a with
    | .error e => .error e
    | .ok b =>
      match mapExcept f as with
      | .error e => .error e
      | .ok bs => .ok (b :: bs)

/-- `get_swapchain_images` (`src/main.rs:236-271`), abstracted over the
driver's `get_swapchain_images` and `create_image_view` entry points: fetch
the image list, create one view per image via `mkImageViewCreateInfo`, and
fail wholesale if fetching or any single view creation fails. -/
def get_swapchain_images
    (getImages : Except VkResult (List Image))
    (createImageView : ImageViewCreateInfo → Except VkResult ImageView)
    (format : SurfaceFormat) : Except VkResult (List Image × List ImageView) :=
  match getImages with
  | .error e => .error e
  | .ok images =>
    match mapExcept (fun image => createImageView (mkImageViewCreateInfo image format)) images with
    | .error e => .error e
    | .ok imageViews => .ok (images, imageViews)

/-! ### Debug callback (`vulkan_debug_callback`) -/

/-- `vk::DebugUtilsMessageSeverityFlagsEXT` bits (Vulkan header values). -/
def SEVERITY_VERBOSE : Nat := 0x1

/-- See `SEVERITY_VERBOSE`. -/
def SEVERITY_INFO : Nat := 0x10

/-- See `SEVERITY_VERBOSE`. -/
def SEVERITY_WARNING : Nat := 0x100

/-- See `SEVERITY_VERBOSE`. -/
def SEVERITY_ERROR : Nat := 0x1000

/-- `vk::DebugUtilsMessageTypeFlagsEXT` bits (Vulkan header values). -/
def TYPE_GENERAL : Nat := 0x1

/-- See `TYPE_GENERAL`. -/
def TYPE_VALIDATION : Nat := 0x2

/-- See `TYPE_GENERAL`. -/
def TYPE_PERFORMANCE : Nat := 0x4

/-- See `TYPE_GENERAL`. -/
def TYPE_DEVICE_ADDRESS_BINDING : Nat := 0x8

/-- The log levels of the `log` crate. -/
inductive LogLevel where
  | error
  | warn
  | info
  | debug
  | trace
  deriving DecidableEq, Repr

/-- `vk::FALSE : vk::Bool32` = 0. -/
def VK_FALSE : Nat := 0

/-- The message formatting of `vulkan_debug_callback`
(`src/main.rs:357-382`): category tag characters, then the message id name,
and — only when the DEVICE_ADDRESS_BINDING category is absent — the message
body (the `{:?}` Debug-quoting of the C strings is elided as pure
presentation). -/
def formatDebugMessage (msgType : Nat) (idName body : String) : String :=
  let g := if containsFlag msgType TYPE_GENERAL then "G" else "_"
  let v := if containsFlag msgType TYPE_VALIDATION then "V" else "_"
  let p := if containsFlag msgType TYPE_PERFORMANCE then "P" else "_"
  if containsFlag msgType TYPE_DEVICE_ADDRESS_BINDING then
    g ++ v ++ p ++ " | " ++ idName
  else
    g ++ v ++ p ++ "_" ++ " | " ++ idName ++ " | " ++ body

/-- Severity routing of `vulkan_debug_callback` (`src/main.rs:384-394`). -/
def routeSeverity (severity : Nat) : LogLevel :=
  if containsFlag severity SEVERITY_ERROR then .error
  else if containsFlag severity SEVERITY_WARNING then .warn
  else if containsFlag severity SEVERITY_INFO then .info
  else if containsFlag severity SEVERITY_VERBOSE then .debug
  else .trace

/-- `vulkan_debug_callback` (`src/main.rs:346-397`): emits one log record
(level and formatted text) and returns `vk::FALSE` to the driver. -/
def vulkan_debug_callback (severity msgType : Nat) (idName body : String) :
    (LogLevel × String) × Nat :=
  ((routeSeverity severity, formatDebugMessage msgType idName body), VK_FALSE)

/-! ## Theorems -/

/-- C2 counterexample input: a capabilities report whose `min_image_count` is
`u32::MAX`, so `min_image_count + 1` overflows `u32`. -/
def overflowCaps : SurfaceCapabilities :=
  { minImageCount := 2 ^ 32 - 1, maxImageCount := 0,
    currentExtent := { width := 1024, height := 768 },
    minImageExtent := { width := 1, height := 1 },
    maxImageExtent := { width := 4096, height := 4096 },
    supportedTransforms := 1, currentTransform := 1 }

/-- C2 (counterexample): at `min_image_count = u32::MAX` and
`max_image_count = 0` the computed image count is the wrapped `u32` sum `0`,
not `min_image_count + 1`, so the claim fails as stated for this
capabilities report. -/
theorem computeImageCount_overflow_cex :
    overflowCaps.maxImageCount = 0 ∧
    computeImageCount overflowCaps ≠ overflowCaps.minImageCount + 1 := by
  constructor
  · rfl
  · intro h
    have h0 : computeImageCount overflowCaps = 0 := by decide
    rw [h0] at h
    have : overflowCaps.minImageCount = 2 ^ 32 - 1 := rfl
    omega

/-- C2 (amended): for every capabilities report whose `min_image_count + 1`
does not overflow `u32`, the computed image count is `min_image_count + 1`
when `max_image_count = 0` (unbounded) or when
`min_image_count + 1 ≤ max_image_count`, and is `max_image_count` when
`max_image_count > 0` and `min_image_count + 1 > max_image_count`. -/
theorem computeImageCount_policy (caps : SurfaceCapabilities)
    (hof : caps.minImageCount + 1 < 2 ^ 32) :
    (caps.maxImageCount = 0 →
      computeImageCount caps = caps.minImageCount + 1) ∧
    (caps.maxImageCount > 0 → caps.minImageCount + 1 ≤ caps.maxImageCount →
      computeImageCount caps = caps.minImageCount + 1) ∧
    (caps.maxImageCount > 0 → caps.minImageCount + 1 > caps.maxImageCount →
      computeImageCount caps = caps.maxImageCount) := by
  have hmod : (caps.minImageCount + 1) % 2 ^ 32 = caps.minImageCount + 1 :=
    Nat.mod_eq_of_lt hof
  unfold computeImageCount
  simp only [hmod, Bool.and_eq_true, decide_eq_true_eq, gt_iff_lt]
  refine ⟨?_, ?_, ?_⟩
  · intro h0
    rw [if_neg]
    rintro ⟨h1, _⟩
    omega
  · intro _ hle
    rw [if_neg]
    rintro ⟨_, h2⟩
    omega
  · intro hpos hgt
    rw [if_pos ⟨hpos, hgt⟩]

/-- C2 witness: the amended policy applied at a concrete report
(`min_image_count = 2`, `max_image_count = 3`). -/
theorem computeImageCount_policy_witness :
    computeImageCount
      { minImageCount := 2, maxImageCount := 3,
        currentExtent := { width := 1024, height := 768 },
        minImageExtent := { width := 1, height := 1 },
        maxImageExtent := { width := 4096, height := 4096 },
        supportedTransforms := 1, currentTransform := 1 } = 3 :=
  (computeImageCount_policy _ (by decide)).2.1 (by decide) (by decide)

/-- C3: the chosen extent is the configured 800×600 window size exactly when
the surface reports the undefined-extent sentinel in `width`, is the reported
`current_extent` verbatim otherwise, and in both cases is independent of the
capabilities' min/max image-extent bounds (no clamping). -/
theorem chooseExtent_policy (caps : SurfaceCapabilities) :
    (caps.currentExtent.width = U32_MAX →
      chooseExtent caps = { width := 800, height := 600 }) ∧
    (caps.currentExtent.width ≠ U32_MAX →
      chooseExtent caps = caps.currentExtent) ∧
    (∀ lo hi, chooseExtent { caps with minImageExtent := lo, maxImageExtent := hi }
      = chooseExtent caps) := by
  refine ⟨?_, ?_, ?_⟩
  · intro h
    simp [chooseExtent, h, WIDTH, HEIGHT]
  · intro h
    simp [chooseExtent, h]
  · intro lo hi
    simp [chooseExtent]

/-- C3 witness: the extent policy applied at two concrete reports, one with
the undefined-extent sentinel and one with a definite extent. -/
theorem chooseExtent_policy_witness :
    chooseExtent
      { minImageCount := 2, maxImageCount := 0,
        currentExtent := { width := 2 ^ 32 - 1, height := 768 },
        minImageExtent := { width := 1, height := 1 },
        maxImageExtent := { width := 4096, height := 4096 },
        supportedTransforms := 1, currentTransform := 1 }
      = { width := 800, height := 600 } ∧
    chooseExtent
      { minImageCount := 2, maxImageCount := 0,
        currentExtent := { width := 1024, height := 768 },
        minImageExtent := { width := 1, height := 1 },
        maxImageExtent := { width := 4096, height := 4096 },
        supportedTransforms := 1, currentTransform := 1 }
      = { width := 1024, height := 768 } :=
  ⟨(chooseExtent_policy _).1 (by decide),
   (chooseExtent_policy _).2.1 (by decide)⟩

/-- C4: `create_swapchain` selects MAILBOX whenever the reported present-mode
list contains it (at any position), selects the first listed mode when the
list is nonempty without MAILBOX, and fails with the no-present-mode error
exactly when the list is empty. -/
theorem choosePresentMode_policy (modes : List PresentMode) :
    (modes.contains MAILBOX = true →
      choosePresentMode modes = .ok MAILBOX) ∧
    (modes.contains MAILBOX = false →
      ∀ m rest, modes = m :: rest → choosePresentMode modes = .ok m) ∧
    (choosePresentMode modes = .error SwapchainError.noPresentModes ↔
      modes = []) := by
  refine ⟨?_, ?_, ?_, ?_⟩
  · intro h
    have hm : MAILBOX ∈ modes := by simpa using h
    simp [choosePresentMode, hm]
  · intro h m rest hmv
    subst hmv
    have hm : MAILBOX ∉ m :: rest := by simpa using h
    simp [choosePresentMode, hm]
  · intro h
    by_cases hm : MAILBOX ∈ modes
    · simp [choosePresentMode, hm] at h
    · cases modes with
      | nil => rfl
      | cons m rest => simp [choosePresentMode, hm] at h
  · intro h
    subst h
    rfl

/-- C4 witness: MAILBOX chosen from a list listing it second; the first mode
chosen from a MAILBOX-free list. -/
theorem choosePresentMode_policy_witness :
    choosePresentMode [FIFO, MAILBOX] = .ok MAILBOX ∧
    choosePresentMode [FIFO] = .ok FIFO :=
  ⟨(choosePresentMode_policy [FIFO, MAILBOX]).1 (by decide),
   (choosePresentMode_policy [FIFO]).2.1 (by decide) FIFO [] rfl⟩

/-- C7: the device create-info built by `create_queue_and_logical_device`
holds exactly one queue-create entry, for the given family with the single
priority 1.0, the full five-name required device-extension list, and the
default (all-false) feature set; and on success the returned queue is the one
retrieved at queue index 0 of that family on the created device. -/
theorem create_queue_and_logical_device_spec
    (createDevice : DeviceCreateInfo → Except VkResult Device)
    (getDeviceQueue : Device → Nat → Nat → Queue) (qfi : Nat) :
    (mkDeviceCreateInfo qfi).queueCreateInfos
      = [{ queueFamilyIndex := qfi, queuePriorities := [1] }] ∧
    (mkDeviceCreateInfo qfi).enabledExtensionNames
      = [ strBytes "VK_KHR_ray_tracing_pipeline",
          strBytes "VK_KHR_spirv_1_4",
          strBytes "VK_KHR_acceleration_structure",
          strBytes "VK_KHR_deferred_host_operations",
          strBytes "VK_KHR_swapchain" ] ∧
    (mkDeviceCreateInfo qfi).enabledFeatures = {} ∧
    ∀ d q,
      create_queue_and_logical_device createDevice getDeviceQueue qfi = .ok (d, q) →
      createDevice (mkDeviceCreateInfo qfi) = .ok d ∧ q = getDeviceQueue d qfi 0 := by
  refine ⟨rfl, rfl, rfl, ?_⟩
  intro d q h
  unfold create_queue_and_logical_device at h
  cases hcd : createDevice (mkDeviceCreateInfo qfi) with
  | error e => rw [hcd] at h; exact absurd h (by simp)
  | ok dev =>
    rw [hcd] at h
    simp only [Except.ok.injEq, Prod.mk.injEq] at h
    obtain ⟨hd, hq⟩ := h
    subst hd
    exact ⟨rfl, hq.symm⟩

/-- C7 witness: the success-case conclusion at a concrete driver that returns
device handle 42, with queue handles computed as `d·100 + family·10 + idx`. -/
theorem create_queue_and_logical_device_spec_witness :
    (fun _ => (Except.ok 42 : Except VkResult Device)) (mkDeviceCreateInfo 3)
      = Except.ok 42 ∧
    (4230 : Queue) = (fun (d f i : Nat) => d * 100 + f * 10 + i) 42 3 0 :=
  (create_queue_and_logical_device_spec
    (fun _ => (Except.ok 42 : Except VkResult Device))
    (fun (d f i : Nat) => d * 100 + f * 10 + i) 3).2.2.2 42 4230 rfl

/-- C8: the callback's log level is determined by severity with the priority
error > warning > info > verbose, and any severity containing none of the
four named bits is routed to trace. -/
theorem vulkan_debug_callback_routing (severity msgType : Nat)
    (idName body : String) :
    ((containsFlag severity SEVERITY_ERROR = true →
        (vulkan_debug_callback severity msgType idName body).1.1 = .error) ∧
     (containsFlag severity SEVERITY_ERROR = false →
      containsFlag severity SEVERITY_WARNING = true →
        (vulkan_debug_callback severity msgType idName body).1.1 = .warn) ∧
     (containsFlag severity SEVERITY_ERROR = false →
      containsFlag severity SEVERITY_WARNING = false →
      containsFlag severity SEVERITY_INFO = true →
        (vulkan_debug_callback severity msgType idName body).1.1 = .info) ∧
     (containsFlag severity SEVERITY_ERROR = false →
      containsFlag severity SEVERITY_WARNING = false →
      containsFlag severity SEVERITY_INFO = false →
      containsFlag severity SEVERITY_VERBOSE = true →
        (vulkan_debug_callback severity msgType idName body).1.1 = .debug) ∧
     (containsFlag severity SEVERITY_ERROR = false →
      containsFlag severity SEVERITY_WARNING = false →
      containsFlag severity SEVERITY_INFO = false →
      containsFlag severity SEVERITY_VERBOSE = false →
        (vulkan_debug_callback severity msgType idName body).1.1 = .trace)) := by
  refine ⟨?_, ?_, ?_, ?_, ?_⟩ <;>
    intros <;>
    simp_all [vulkan_debug_callback, routeSeverity]

/-- C8 witness: a severity with both the ERROR and WARNING bits set is routed
to the error level. -/
theorem vulkan_debug_callback_routing_witness :
    (vulkan_debug_callback 0x1100 0x1 "id" "msg").1.1 = .error :=
  (vulkan_debug_callback_routing 0x1100 0x1 "id" "msg").1 (by decide)

/-- C9: for every severity, message type, and message content, the debug
callback returns `vk::FALSE` (0) to the driver. -/
theorem vulkan_debug_callback_returns_false (severity msgType : Nat)
    (idName body : String) :
    (vulkan_debug_callback severity msgType idName body).2 = VK_FALSE := rfl

/-! ## Helper lemmas for the selection and batching combinators -/

theorem findMap_isSome (f : α → Option β) (l : List α) :
    (findMap f l).isSome = true ↔ ∃ a ∈ l, (f a).isSome = true := by
  induction l with
  | nil => simp [findMap]
  | cons a as ih => cases h : f a <;> simp [findMap, h, ih]

theorem findMap_eq_some (f : α → Option β) (l : List α) (b : β)
    (h : findMap f l = some b) : ∃ a ∈ l, f a = some b := by
  induction l with
  | nil => simp [findMap] at h
  | cons a as ih =>
    rw [findMap] at h
    cases ha : f a with
    | some c =>
      rw [ha] at h
      refine ⟨a, by simp, ?_⟩
      rw [ha]
      exact h
    | none =>
      rw [ha] at h
      obtain ⟨x, hx, hfx⟩ := ih h
      exact ⟨x, by simp [hx], hfx⟩

theorem mapExcept_ok_length (f : α → Except ε β) (l : List α) (r : List β)
    (h : mapExcept f l = .ok r) : r.length = l.length := by
  induction l generalizing r with
  | nil =>
    rw [mapExcept] at h
    simp only [Except.ok.injEq] at h
    subst h
    rfl
  | cons a as ih =>
    rw [mapExcept] at h
    cases ha : f a with
    | error e => rw [ha] at h; exact absurd h (by simp)
    | ok b =>
      rw [ha] at h
      cases hr : mapExcept f as with
      | error e => rw [hr] at h; exact absurd h (by simp)
      | ok bs =>
        rw [hr] at h
        simp only [Except.ok.injEq] at h
        subst h
        simp [ih bs hr]

theorem mapExcept_ok_get (f : α → Except ε β) (l : List α) (r : List β)
    (h : mapExcept f l = .ok r) :
    ∀ k (hk : k < l.length) (hk2 : k < r.length),
      f (l.get ⟨k, hk⟩) = .ok (r.get ⟨k, hk2⟩) := by
  induction l generalizing r with
  | nil => intro k hk; exact absurd hk (by simp)
  | cons a as ih =>
    rw [mapExcept] at h
    cases ha : f a with
    | error e => rw [ha] at h; exact absurd h (by simp)
    | ok b =>
      rw [ha] at h
      cases hr : mapExcept f as with
      | error e => rw [hr] at h; exact absurd h (by simp)
      | ok bs =>
        rw [hr] at h
        simp only [Except.ok.injEq] at h
        subst h
        intro k hk hk2
        cases k with
        | zero => simpa using ha
        | succ k =>
          exact ih bs hr k (Nat.lt_of_succ_lt_succ hk)
            (Nat.lt_of_succ_lt_succ hk2)

theorem mapExcept_error_of_mem (f : α → Except ε β) (l : List α) (a : α)
    (ha : a ∈ l) (e : ε) (he : f a = .error e) :
    ∃ e2, mapExcept f l = .error e2 := by
  induction l with
  | nil => exact absurd ha (by simp)
  | cons x xs ih =>
    rw [mapExcept]
    cases hx : f x with
    | error e3 => exact ⟨e3, rfl⟩
    | ok b =>
      rcases List.mem_cons.mp ha with hax | hax
      · subst hax
        rw [hx] at he
        exact absurd he (by simp)
      · obtain ⟨e2, h2⟩ := ih hax
        rw [h2]
        exact ⟨e2, rfl⟩

theorem findQF_spec (cond : Nat → QueueFamilyProperties → Bool)
    (fams : List QueueFamilyProperties) (i j : Nat)
    (h : findQF cond i fams = some j) :
    i ≤ j ∧ ∃ hj : j - i < fams.length,
      cond j (fams.get ⟨j - i, hj⟩) = true ∧
      ∀ m, i ≤ m → m < j → ∀ hm : m - i < fams.length,
        cond m (fams.get ⟨m - i, hm⟩) = false := by
  induction fams generalizing i with
  | nil => simp [findQF] at h
  | cons f fs ih =>
    rw [findQF] at h
    by_cases hc : cond i f
    · rw [if_pos hc] at h
      simp only [Option.some.injEq] at h
      subst h
      refine ⟨Nat.le_refl i, ?_⟩
      have hz : i - i = 0 := Nat.sub_self i
      refine ⟨by simp [hz], by simp [hz, hc], ?_⟩
      intro m h1 h2
      exact absurd (Nat.lt_of_le_of_lt h1 h2) (Nat.lt_irrefl i)
    · rw [if_neg hc] at h
      obtain ⟨hle, hj1, hcond, hmin⟩ := ih (i + 1) h
      have hij : i ≤ j := Nat.le_of_succ_le hle
      have hsub : j - i = (j - (i + 1)) + 1 := by omega
      refine ⟨hij, ?_⟩
      have hjlt : j - i < fs.length + 1 := by omega
      refine ⟨by simpa using hjlt, ?_, ?_⟩
      · have : (f :: fs).get ⟨j - i, by simpa using hjlt⟩
            = fs.get ⟨j - (i + 1), hj1⟩ := by
          simp only [hsub]
          rfl
        rw [this]
        exact hcond
      · intro m hm1 hm2 hmlt
        rcases Nat.eq_or_lt_of_le hm1 with hmi | hmi
        · have hz : m - i = 0 := by omega
          have hget : (f :: fs).get ⟨m - i, hmlt⟩ = f := by simp [hz]
          rw [hget, ← hmi]
          exact eq_false_of_ne_true hc
        · have hmsub : m - i = (m - (i + 1)) + 1 := by omega
          have hmlt2 : m - (i + 1) < fs.length := by
            simp at hmlt
            omega
          have : (f :: fs).get ⟨m - i, hmlt⟩
              = fs.get ⟨m - (i + 1), hmlt2⟩ := by
            simp only [hmsub]
            rfl
          rw [this]
          exact hmin m hmi hm2 hmlt2

/-- The condition `queue_family_supports_features` evaluates to true exactly
when the family advertises graphics and the surface-support query returns
`Ok(true)`. -/
theorem queueFamilySupportsFeatures_iff (drv : SelectionDriver)
    (pd : PhysicalDevice) (index : Nat) (info : QueueFamilyProperties) :
    queueFamilySupportsFeatures drv pd index info = true ↔
      containsFlag info.queueFlags QUEUE_GRAPHICS = true ∧
      drv.surfaceSupport pd index = .ok true := by
  unfold queueFamilySupportsFeatures
  rw [Bool.and_eq_true]
  cases hs : drv.surfaceSupport pd index with
  | error e => simp
  | ok b => cases b <;> simp

theorem checkDevice_eq_some (drv : SelectionDriver) (pd pd2 : PhysicalDevice)
    (i : Nat) (h : checkDevice drv pd = some (pd2, i)) :
    pd2 = pd ∧
    findQF (queueFamilySupportsFeatures drv pd) 0 (drv.queueFamilies pd)
      = some i := by
  unfold checkDevice at h
  split at h
  · simp at h
  · split at h
    · simp at h
    · split at h
      · simp at h
      · rename_i hf
        simp only [Option.some.injEq, Prod.mk.injEq] at h
        obtain ⟨h1, h2⟩ := h
        subst h2
        exact ⟨h1.symm, hf⟩

/-- C10: the extension filter passes a device exactly when its enumerated
extension list has at least one entry whose name buffer is parseable
(nul-terminated) — independently of which names the list actually holds, the
required-name comparison being wrapped in `Some` and discarded. -/
theorem deviceExtensionCheck_passes_iff_parseable
    (exts : List ExtensionProperties) :
    (deviceExtensionCheck exts).isSome = true ↔
    ∃ ext ∈ exts, (fromBytesUntilNul ext.extensionName).isSome = true := by
  have hpt : ∀ e : ExtensionProperties,
      ((fromBytesUntilNul e.extensionName).map
        (fun name => decide (DEVICE_EXTENSION_NAMES[0]! = name))).isSome
      = (fromBytesUntilNul e.extensionName).isSome := by
    intro e
    cases fromBytesUntilNul e.extensionName <;> rfl
  rw [deviceExtensionCheck, findMap_isSome]
  simp only [hpt]

/-- C10 witness: a single extension entry whose name buffer is "AB\0" — not a
required extension — already makes the filter pass. -/
theorem deviceExtensionCheck_passes_iff_parseable_witness :
    ∃ ext ∈ [ExtensionProperties.mk (strBytes "AB" ++ [0])],
      (fromBytesUntilNul ext.extensionName).isSome = true :=
  (deviceExtensionCheck_passes_iff_parseable
    [ExtensionProperties.mk (strBytes "AB" ++ [0])]).mp (by decide)

/-- C6: on success, `get_swapchain_images` yields the fetched image list and
exactly one view per image, in order, each created from a create-info that is
2-D, of the surface format, with identity r/g/b swizzle and alpha forced to
ONE, over the color aspect; any single view-creation failure (or image-fetch
failure) makes the whole call fail, so no mismatched pair is ever returned. -/
theorem get_swapchain_images_spec
    (getImages : Except VkResult (List Image))
    (createImageView : ImageViewCreateInfo → Except VkResult ImageView)
    (format : SurfaceFormat) :
    (∀ images imageViews,
      get_swapchain_images getImages createImageView format
        = .ok (images, imageViews) →
      getImages = .ok images ∧
      imageViews.length = images.length ∧
      ∀ k (hk : k < images.length) (hk2 : k < imageViews.length),
        createImageView (mkImageViewCreateInfo (images.get ⟨k, hk⟩) format)
          = .ok (imageViews.get ⟨k, hk2⟩)) ∧
    (∀ images, getImages = .ok images →
      (∃ image ∈ images, ∃ e,
        createImageView (mkImageViewCreateInfo image format) = .error e) →
      ∃ e2, get_swapchain_images getImages createImageView format
        = .error e2) ∧
    (∀ image,
      (mkImageViewCreateInfo image format).viewType = .type2D ∧
      (mkImageViewCreateInfo image format).format = format.format ∧
      (mkImageViewCreateInfo image format).components
        = { r := .identity, g := .identity, b := .identity, a := .one } ∧
      (mkImageViewCreateInfo image format).subresourceRange.aspectMask
        = ASPECT_COLOR) := by
  refine ⟨?_, ?_, ?_⟩
  · intro images imageViews h
    unfold get_swapchain_images at h
    cases hg : getImages with
    | error e =>
      simp only [hg] at h
      exact absurd h (by simp)
    | ok imgs =>
      simp only [hg] at h
      cases hm : mapExcept
          (fun image => createImageView (mkImageViewCreateInfo image format))
          imgs with
      | error e =>
        simp only [hm] at h
        exact absurd h (by simp)
      | ok views =>
        simp only [hm, Except.ok.injEq, Prod.mk.injEq] at h
        obtain ⟨h1, h2⟩ := h
        subst h1
        subst h2
        exact ⟨rfl, mapExcept_ok_length _ _ _ hm,
          mapExcept_ok_get _ _ _ hm⟩
  · intro images hg hex
    obtain ⟨image, hmem, e, he⟩ := hex
    obtain ⟨e2, h2⟩ := mapExcept_error_of_mem
      (fun image => createImageView (mkImageViewCreateInfo image format))
      images image hmem e he
    refine ⟨e2, ?_⟩
    unfold get_swapchain_images
    simp only [hg, h2]
  · intro image
    exact ⟨rfl, rfl, rfl, rfl⟩

/-- C6 witness: the success-case length equality at a concrete driver that
reports images `[5, 7]` and creates view `image + 1` for each. -/
theorem get_swapchain_images_spec_witness :
    ([6, 8] : List ImageView).length = ([5, 7] : List Image).length :=
  ((get_swapchain_images_spec (Except.ok [5, 7])
    (fun info => Except.ok (info.image + 1)) ⟨10, 20⟩).1
    [5, 7] [6, 8] rfl).2.1

/-- C5: whenever `find_suitable_physical_device` returns a device and queue
family index, that index points into the device's queue-family list, its
family advertises graphics and has surface support confirmed `Ok(true)` by
the driver, and every lower-indexed family fails at least one of the two
conditions. -/
theorem find_suitable_queue_family_spec (drv : SelectionDriver)
    (pd : PhysicalDevice) (i : Nat)
    (h : find_suitable_physical_device drv = .ok (pd, i)) :
    ∃ hi : i < (drv.queueFamilies pd).length,
      (containsFlag ((drv.queueFamilies pd).get ⟨i, hi⟩).queueFlags
          QUEUE_GRAPHICS = true ∧
        drv.surfaceSupport pd i = .ok true) ∧
      ∀ j, j < i → ∀ hj : j < (drv.queueFamilies pd).length,
        ¬(containsFlag ((drv.queueFamilies pd).get ⟨j, hj⟩).queueFlags
            QUEUE_GRAPHICS = true ∧
          drv.surfaceSupport pd j = .ok true) := by
  unfold find_suitable_physical_device at h
  split at h
  · exact absurd h (by simp)
  · split at h
    · rename_i devs hd p hf
      simp only [Except.ok.injEq] at h
      subst h
      obtain ⟨a, _, hca⟩ := findMap_eq_some _ _ _ hf
      obtain ⟨hpd, hqf⟩ := checkDevice_eq_some drv a pd i hca
      subst hpd
      obtain ⟨-, hj0, hcond, hmin⟩ := findQF_spec _ _ _ _ hqf
      have hz : i - 0 = i := Nat.sub_zero i
      rw [hz] at hj0
      refine ⟨hj0, ?_, ?_⟩
      · have := hcond
        rw [show (⟨i - 0, by rw [hz]; exact hj0⟩ :
            Fin (drv.queueFamilies pd).length) = ⟨i, hj0⟩ from by
          simp [hz]] at this
        exact (queueFamilySupportsFeatures_iff drv pd i _).mp this
      · intro j hji hj
        have hmz : j - 0 = j := Nat.sub_zero j
        have hfalse := hmin j (Nat.zero_le j) hji (by rw [hmz]; exact hj)
        rw [show (⟨j - 0, by rw [hmz]; exact hj⟩ :
            Fin (drv.queueFamilies pd).length) = ⟨j, hj⟩ from by
          simp [hmz]] at hfalse
        intro hcontra
        have := (queueFamilySupportsFeatures_iff drv pd j _).mpr hcontra
        rw [this] at hfalse
        exact Bool.noConfusion hfalse
    · exact absurd h (by simp)

/-- C5 witness driver: one device (handle 3) with two queue families, the
first without graphics and the second with graphics; surface support is
confirmed for every family. -/
def c5Driver : SelectionDriver :=
  { physicalDevices := .ok [3],
    deviceExtensions := fun _ =>
      .ok [ExtensionProperties.mk (strBytes "VK_KHR_swapchain" ++ [0])],
    queueFamilies := fun _ =>
      [{ queueFlags := 0 }, { queueFlags := 1 }],
    surfaceSupport := fun _ _ => .ok true }

/-- C5 witness: on `c5Driver` the selector returns family index 1, which is
in range, satisfies both conditions, and is the lowest such index. -/
theorem find_suitable_queue_family_spec_witness :
    ∃ hi : 1 < (c5Driver.queueFamilies 3).length,
      (containsFlag ((c5Driver.queueFamilies 3).get ⟨1, hi⟩).queueFlags
          QUEUE_GRAPHICS = true ∧
        c5Driver.surfaceSupport 3 1 = .ok true) ∧
      ∀ j, j < 1 → ∀ hj : j < (c5Driver.queueFamilies 3).length,
        ¬(containsFlag ((c5Driver.queueFamilies 3).get ⟨j, hj⟩).queueFlags
            QUEUE_GRAPHICS = true ∧
          c5Driver.surfaceSupport 3 j = .ok true) :=
  find_suitable_queue_family_spec c5Driver 3 1 rfl

/-- C1 failing input: one device whose only reported extension is
`VK_KHR_swapchain` — so its extension set misses four of the five required
names — with a graphics-capable, presentation-capable queue family. -/
def c1Exts : List ExtensionProperties :=
  [ExtensionProperties.mk (strBytes "VK_KHR_swapchain" ++ [0])]

/-- See `c1Exts`. -/
def c1Driver : SelectionDriver :=
  { physicalDevices := .ok [0],
    deviceExtensions := fun _ => .ok c1Exts,
    queueFamilies := fun _ => [{ queueFlags := 1 }],
    surfaceSupport := fun _ _ => .ok true }

/-- C1: evaluation at the failing input — the device's reported extension set
is not a superset of the required list (the ray-tracing name is required but
not among the device's parseable extension names), yet
`find_suitable_physical_device` returns that device. -/
theorem find_suitable_accepts_missing_extensions :
    find_suitable_physical_device c1Driver = .ok (0, 0) ∧
    c1Driver.deviceExtensions 0 = .ok c1Exts ∧
    ∃ r ∈ DEVICE_EXTENSION_NAMES,
      r ∉ c1Exts.filterMap (fun e => fromBytesUntilNul e.extensionName) := by
  refine ⟨rfl, rfl, strBytes "VK_KHR_ray_tracing_pipeline",
    by decide, by decide⟩

end VoxelVoxel
